import Mathlib

/-!
Shallow embedding of the Naga-7 security platform core, translated from the
Python sources (`n7-core`, `n7-strikers`), together with theorems settling the
frozen specification claims.

Conventions of the embedding:
* Python dicts of JSON-shaped data become association lists `List (String × JVal)`;
  `dict.get(k)` becomes `List.lookup`.
* Wall-clock instants become `Int` seconds; `datetime.utcnow()` is a `now` parameter.
* Side effects (database inserts, cache writes, bus publishes) become explicit
  effect traces or state records threaded through the translated functions.
* Randomised identifiers (`uuid4`) and timestamps inside published payloads are
  irrelevant to every claim and are left out of the payload records.
-/

set_option maxRecDepth 4000

/-- JSON-shaped values as they appear in the services' dict payloads
(strings, ints, booleans, null, and the string arrays used for MITRE tags).
Mirrors the value space the Python code actually stores in `raw_data` /
`reasoning` dictionaries. -/
inductive JVal where
  | s (v : String)
  | i (v : Int)
  | b (v : Bool)
  | null
  | arr (v : List String)
deriving Repr, DecidableEq

/-- ASCII lower-casing of one character (model of Python `str.lower` on the
ASCII severity strings the services exchange). -/
def charLower (c : Char) : Char :=
  if 65 ≤ c.toNat ∧ c.toNat ≤ 90 then Char.ofNat (c.toNat + 32) else c

/-- ASCII lower-casing of a string, character by character. -/
def strLower (s : String) : String :=
  String.mk (s.data.map charLower)

/-- Python truthiness of an optional JSON value, as used by
`if reasoning.get("source_ip"):` — `None`, `""`, `0`, `False`, `[]`
are falsy, everything else truthy. -/
def jTruthy : Option JVal → Bool
  | none => false
  | some (.s v) => v != ""
  | some (.i v) => v != 0
  | some (.b v) => v
  | some .null => false
  | some (.arr v) => !v.isEmpty

/- ------------------------------------------------------------------
Threat correlator: threat-score calculation
(src/n7-core/n7_core/threat_correlator/service.py, `_calculate_threat_score`).
------------------------------------------------------------------ -/

/-- The `base_scores` table of `_calculate_threat_score`. -/
def base_scores : List (String × Int) :=
  [("critical", 90), ("high", 75), ("medium", 50), ("low", 25), ("info", 10)]

/-- Translation of `ThreatCorrelatorService._calculate_threat_score`:
honeytoken rule short-circuits to 100; otherwise the severity's base score
(default 50), plus 10 capped at 100 for multi-stage alerts. -/
def calculate_threat_score (severity : String) (is_multi_stage : Bool)
    (rule_id : String) : Int :=
  if rule_id == "honeytoken_access" then 100
  else
    let score := (base_scores.lookup severity).getD 50
    if is_multi_stage then min 100 (score + 10) else score

/- ------------------------------------------------------------------
Threat correlator: the reasoning dictionary attached to minted alerts
(src/n7-core/n7_core/threat_correlator/service.py, `_create_alert`).
------------------------------------------------------------------ -/

/-- The `reasoning` dict `_create_alert` builds from a rule and source:
`{"rule": rule["name"], "description": ..., "count": ..., "source": ...,
"mitre_tactics": ..., "mitre_techniques": ..., "is_multi_stage": ...}`. -/
def mkReasoning (ruleName ruleDescription : String) (count : Int)
    (source : String) (tactics techniques : List String)
    (is_multi_stage : Bool) : List (String × JVal) :=
  [("rule", .s ruleName),
   ("description", .s ruleDescription),
   ("count", .i count),
   ("source", .s source),
   ("mitre_tactics", .arr tactics),
   ("mitre_techniques", .arr techniques),
   ("is_multi_stage", .b is_multi_stage)]

/-- The reasoning dict of an alert minted by the `brute_force` rule of
`correlation_rules.py`: `rule["name"] = "Brute Force Attack Detection"`,
source keyed under `"source"` (there is no `"source_ip"` key). -/
def bruteForceReasoning (source : String) (count : Int) : List (String × JVal) :=
  mkReasoning "Brute Force Attack Detection"
    "Detects multiple failed authentication attempts from the same source"
    count source ["TA0001"] ["T1110"] false

/- ------------------------------------------------------------------
Decision engine (src/n7-core/n7_core/decision_engine/service.py, `handle_alert`).
------------------------------------------------------------------ -/

/-- The fields of the protobuf alert that `handle_alert` reads.  `reasoning`
is carried as a JSON object (the JSON string round-trips to the dict the
correlator serialised). -/
structure ProtoAlertMsg where
  alert_id : String
  severity : String
  threat_score : Int
  reasoning : List (String × JVal)
deriving Repr, DecidableEq

/-- An action payload published on `n7.actions.broadcast`: its `"type"` field
and its `"params"` dict (= the `action_to_take` dict).  The randomised
`action_id` and timestamp are omitted. -/
structure ActionPayload where
  alert_id : String
  type : JVal
  params : List (String × JVal)
deriving Repr, DecidableEq

/-- Result of `DecisionEngineService.handle_alert`: the verdict it computes
and the list of payloads it publishes on `n7.actions.broadcast`. -/
structure DecisionResult where
  verdict : String
  published : List ActionPayload
deriving Repr, DecidableEq

/-- Translation of `DecisionEngineService.handle_alert`.  Computes
`(verdict, action_to_take)` by the severity policy, then publishes exactly one
broadcast payload when `verdict == "auto_respond"` and an action was chosen. -/
def handle_alert (a : ProtoAlertMsg) : DecisionResult :=
  let severity := strLower a.severity
  let reasoning := a.reasoning
  let step : String × Option (List (String × JVal)) :=
    if severity == "critical" then
      -- auto-isolate host for multi-stage critical attacks
      if jTruthy (reasoning.lookup "is_multi_stage") &&
         jTruthy (reasoning.lookup "source") then
        ("auto_respond", some
          [("action_type", .s "isolate_host"),
           ("reason", (reasoning.lookup "rule").getD (.s "multi_stage_critical_attack")),
           ("alert_id", .s a.alert_id),
           ("source", (reasoning.lookup "source").getD .null)])
      else ("escalate", none)
    else if severity == "high" then
      if a.threat_score > 70 then
        if reasoning.lookup "rule" == some (.s "Brute Force") then
          let source_ip := reasoning.lookup "source_ip"
          if jTruthy source_ip then
            ("auto_respond", some
              [("action_type", .s "network_block"),
               ("target", source_ip.getD .null),
               ("duration", .i 3600)])
          else ("auto_respond", none)
        else ("auto_respond", none)
      else ("dismiss", none)
    else if severity == "medium" then ("escalate", none)
    else ("dismiss", none)
  match step with
  | (verdict, some act) =>
      if verdict == "auto_respond" then
        { verdict := verdict,
          published := [{ alert_id := a.alert_id,
                          type := (act.lookup "action_type").getD .null,
                          params := act }] }
      else { verdict := verdict, published := [] }
  | (verdict, none) => { verdict := verdict, published := [] }

/-- The alert the correlator mints when the `brute_force` rule reaches its
threshold of 5 failed authentications from one source: severity `high`
(from the rule), threat score `calculate_threat_score "high" false` = 75,
reasoning as serialised by `_create_alert`. -/
def bruteForceScenarioAlert (source : String) : ProtoAlertMsg :=
  { alert_id := "a-1",
    severity := "high",
    threat_score := calculate_threat_score "high" false "brute_force",
    reasoning := bruteForceReasoning source 5 }

/-- C1: the code is broken on the brute-force scenario.  The correlator's
reasoning carries `rule = "Brute Force Attack Detection"` and the source under
the key `"source"`, while the decision engine requires `rule == "Brute Force"`
and reads `"source_ip"`; so an alert minted for five failed authentications
from `203.0.113.7` gets verdict `auto_respond` but NO `network_block` payload
is published on the broadcast subject — contradicting the claimed dispatch. -/
theorem c1_bruteforce_dispatch_never_fires :
    handle_alert (bruteForceScenarioAlert "203.0.113.7") =
      { verdict := "auto_respond", published := [] } := by
  decide

/-- C9: every minted alert's threat score is the severity's base-table value
plus a multi-stage bonus of 10 capped at 100, and the honeytoken rule always
scores 100. -/
theorem c9_threat_score_table (severity : String) (base : Int)
    (hbase : base_scores.lookup severity = some base)
    (rule_id : String) (hrule : rule_id ≠ "honeytoken_access")
    (is_multi_stage : Bool) :
    calculate_threat_score severity is_multi_stage rule_id =
        min 100 (base + (if is_multi_stage then 10 else 0)) ∧
      (∀ sev multi, calculate_threat_score sev multi "honeytoken_access" = 100) := by
  constructor
  · have hneq : (rule_id == "honeytoken_access") = false := by
      simp [hrule]
    simp only [calculate_threat_score, hneq, Bool.false_eq_true, if_false, hbase,
      Option.getD_some]
    have hb : base = 90 ∨ base = 75 ∨ base = 50 ∨ base = 25 ∨ base = 10 := by
      simp only [base_scores, List.lookup] at hbase
      split at hbase <;> [skip; split at hbase] <;>
        [skip; skip; split at hbase] <;> [skip; skip; skip; split at hbase] <;>
        [skip; skip; skip; skip; split at hbase] <;> simp_all
    cases is_multi_stage <;> rcases hb with h | h | h | h | h <;> subst h <;> decide
  · intro sev multi
    simp [calculate_threat_score]

/-- Witness for `c9_threat_score_table` at severity `high`, rule
`brute_force`, single-stage: score 75 = min 100 (75 + 0). -/
theorem c9_threat_score_table_witness :
    base_scores.lookup "high" = some 75 ∧ ("brute_force" : String) ≠ "honeytoken_access" ∧
      (calculate_threat_score "high" false "brute_force" =
          min 100 (75 + (if false then 10 else 0)) ∧
        (∀ sev multi, calculate_threat_score sev multi "honeytoken_access" = 100)) :=
  ⟨by decide, by decide,
    c9_threat_score_table "high" 75 (by decide) "brute_force" (by decide) false⟩

/- ------------------------------------------------------------------
LLM analyzer health probe
(src/n7-core/n7_core/llm_analyzer/service.py, `check_llm_health`).
------------------------------------------------------------------ -/

/-- Observable outcome of the GET to the Ollama `/api/tags` endpoint inside
`check_llm_health`'s `try` block: either some step raises (connection error,
timeout, a non-2xx status raised by `raise_for_status`, or an unparsable JSON
body), or the request succeeds and yields the `name` fields of the returned
`models` array. -/
inductive TagsOutcome where
  | failure
  | success (models : List String)
deriving Repr, DecidableEq

/-- Translation of `LLMAnalyzerService.check_llm_health`.  `client` models
`self._http_client` (`None` until `start` runs).  Every exception path is
caught and mapped to `False`, so the translated function is total — the
probe never raises.  When the tag listing succeeds, the configured model's
absence from the list only selects a warning log; the function returns `True`
regardless (`return True  # Ollama itself is up`). -/
def check_llm_health (client : Option Unit) (ollama_model : String)
    (outcome : TagsOutcome) : Bool :=
  match client with
  | none => false
  | some _ =>
      match outcome with
      | .failure => false
      | .success models =>
          let model_found := models.any fun m =>
            m == ollama_model || m.startsWith (ollama_model ++ ":")
          -- `model_found` only gates the warning log, not the return value
          let _ := model_found
          true

/-- C10: the health probe returns `False` whenever the HTTP client is
uninitialized or the tags request fails, and `True` whenever the tags request
succeeds — for every model list, including ones not containing the configured
model. -/
theorem c10_llm_health_check :
    (∀ model outcome, check_llm_health none model outcome = false) ∧
    (∀ client model, check_llm_health client model .failure = false) ∧
    (∀ model models, check_llm_health (some ()) model (.success models) = true) := by
  refine ⟨fun model outcome => rfl, fun client model => ?_, fun model models => rfl⟩
  cases client <;> rfl

/- ------------------------------------------------------------------
Agent store, heartbeat handling, and the agent list endpoint
(src/n7-core/n7_core/agent_manager/service.py and
src/n7-core/n7_core/api_gateway/routers/agents.py).
------------------------------------------------------------------ -/

/-- An agent row as stored by the Core (the fields liveness touches). -/
structure AgentRow where
  id : String
  agent_type : String
  status : String
  last_heartbeat : Option Int
deriving Repr, DecidableEq

/-- `AGENT_STALE_THRESHOLD_SECONDS` of `routers/agents.py`. -/
def AGENT_STALE_THRESHOLD_SECONDS : Int := 90

/-- Translation of `AgentManagerService.handle_heartbeat`'s store update:
a known agent gets a fresh `last_heartbeat` and the status carried by the
heartbeat payload (default `"active"`); an unknown agent is inserted the same
way.  Statuses in the store only ever come from these payloads. -/
def handle_heartbeat (now : Int) (agent_id : String) (payload_status : Option String)
    (agent_type : String) (store : List AgentRow) : List AgentRow :=
  if store.any (fun a => a.id == agent_id) then
    store.map fun a =>
      if a.id == agent_id then
        { a with last_heartbeat := some now, status := payload_status.getD "active" }
      else a
  else
    store ++ [{ id := agent_id, agent_type := agent_type,
                status := payload_status.getD "active", last_heartbeat := some now }]

/-- `AgentManagerService.start` subscribes to `n7.heartbeat.>` and
`n7.node.metadata.>` and creates no periodic task; no Core service schedules
a timed job that rewrites agent statuses.  The passage of time alone therefore
leaves the agent store unchanged: the background step of the agent manager at
any instant is the identity on the store. -/
def agent_manager_background_step (now : Int) (store : List AgentRow) :
    List AgentRow :=
  let _ := now
  store

/-- Translation of the presentation loop of `list_agents`
(`routers/agents.py`): each returned row whose `last_heartbeat` is older than
the stale threshold is shown with status `"inactive"`; fresh rows and rows
without a heartbeat keep their stored status. -/
def list_agents (now : Int) (store : List AgentRow) : List AgentRow :=
  store.map fun a =>
    match a.last_heartbeat with
    | some hb =>
        if hb < now - AGENT_STALE_THRESHOLD_SECONDS then { a with status := "inactive" }
        else a
    | none => a

/-- C2 fails on the code: there is no background liveness sweep.  At time 1000
an agent last heard from at time 0 (far beyond the 90-second threshold) still
has status `"active"` after the agent manager's background processing,
contradicting the claimed `active → unhealthy` transition. -/
theorem c2_sweep_counterexample :
    ¬ (∀ (now : Int) (store : List AgentRow) (a : AgentRow),
        a ∈ agent_manager_background_step now store →
        a.status = "active" →
        (∃ hb, a.last_heartbeat = some hb ∧
          hb < now - AGENT_STALE_THRESHOLD_SECONDS) →
        a.status = "unhealthy") := by
  intro h
  have := h 1000 [{ id := "s1", agent_type := "sentinel", status := "active",
                    last_heartbeat := some 0 }]
    { id := "s1", agent_type := "sentinel", status := "active",
      last_heartbeat := some 0 }
    (by simp [agent_manager_background_step]) rfl
    ⟨0, rfl, by norm_num [AGENT_STALE_THRESHOLD_SECONDS]⟩
  simp at this

/-- C2 amended: the Core runs no background liveness sweep — agent statuses in
the store are unchanged by the passage of time alone — while the agent list
endpoint presents every row whose `last_heartbeat` is older than the
90-second threshold with status `"inactive"`. -/
theorem c2_no_sweep_list_presents_inactive (now : Int) (store : List AgentRow) :
    agent_manager_background_step now store = store ∧
    ∀ a ∈ store, ∀ hb, a.last_heartbeat = some hb →
      hb < now - AGENT_STALE_THRESHOLD_SECONDS →
      { a with status := "inactive" } ∈ list_agents now store := by
  refine ⟨rfl, fun a ha hb hhb hstale => ?_⟩
  have hfa : (fun a : AgentRow =>
      match a.last_heartbeat with
      | some hb =>
          if hb < now - AGENT_STALE_THRESHOLD_SECONDS then
            { a with status := "inactive" }
          else a
      | none => a) a = { a with status := "inactive" } := by
    simp only [hhb, hstale, if_pos]
  rw [list_agents, ← hfa]
  exact List.mem_map_of_mem _ ha

/-- Witness for `c2_no_sweep_list_presents_inactive` at time 1000 with a
single agent last heard from at time 0. -/
theorem c2_no_sweep_witness :
    agent_manager_background_step 1000
        [{ id := "s1", agent_type := "sentinel", status := "active",
           last_heartbeat := some 0 }] =
      [{ id := "s1", agent_type := "sentinel", status := "active",
         last_heartbeat := some 0 }] ∧
    ({ id := "s1", agent_type := "sentinel", status := "inactive",
       last_heartbeat := some 0 } : AgentRow) ∈
      list_agents 1000
        [{ id := "s1", agent_type := "sentinel", status := "active",
           last_heartbeat := some 0 }] := by
  have h := c2_no_sweep_list_presents_inactive 1000
    [{ id := "s1", agent_type := "sentinel", status := "active",
       last_heartbeat := some 0 }]
  exact ⟨h.1, h.2 { id := "s1", agent_type := "sentinel", status := "active",
                    last_heartbeat := some 0 }
    (by simp) 0 rfl (by norm_num [AGENT_STALE_THRESHOLD_SECONDS])⟩

/- ------------------------------------------------------------------
Agent API-key registration and authentication
(src/n7-core/n7_core/api_gateway/auth.py, `get_agent_from_api_key`;
src/n7-core/n7_core/api_gateway/routers/agents.py, `register_agent`).
------------------------------------------------------------------ -/

/-- A stored agent credential: the indexed 16-character `api_key_prefix` and
the bcrypt `api_key_hash` of the full key (models/agent.py). -/
structure CredRow where
  agent_id : Nat
  api_key_prefix16 : String
  api_key_hash : String
deriving Repr, DecidableEq

/-- Model of `pwd_context.hash` (bcrypt): an uninvertible tag of the key.
The code relies only on `verify(k, h)` succeeding exactly when `h` was
produced from `k`, which this deterministic model provides. -/
def pwd_hash (key : String) : String := "bcrypt$" ++ key

/-- Model of `pwd_context.verify`. -/
def pwd_verify (key hash : String) : Bool := hash == pwd_hash key

/-- `api_key[:16] if len(api_key) >= 16 else api_key` — the prefix used for
the O(1) indexed lookup, identical in `auth.py` and `register_agent`. -/
def api_key_prefix_of (key : String) : String :=
  if 16 ≤ key.length then key.take 16 else key

/-- SQLAlchemy's `Result.scalar_one_or_none`: `none` for an empty result,
the row for a singleton, and a raised `MultipleResultsFound` otherwise. -/
def scalar_one_or_none : List α → Except String (Option α)
  | [] => .ok none
  | [a] => .ok (some a)
  | _ => .error "MultipleResultsFound"

/-- Translation of `get_agent_from_api_key`: prefix-indexed SELECT, then
bcrypt verification of the full key; any miss or mismatch raises 401. -/
def get_agent_from_api_key (api_key : String) (store : List CredRow) :
    Except String CredRow :=
  let pre := api_key_prefix_of api_key
  match scalar_one_or_none (store.filter fun r => r.api_key_prefix16 == pre) with
  | .error e => .error e
  | .ok none => .error "401 Invalid API key"
  | .ok (some agent) =>
      if pwd_verify api_key agent.api_key_hash then .ok agent
      else .error "401 Invalid API key"

/-- Translation of the credential logic of `register_agent`: if a row with the
key's prefix exists, the full key is verified against its hash — success is a
re-registration returning the existing agent, failure raises the 400
collision error; otherwise a new row with the hashed key is inserted.
Returns the responding agent row and the updated store. -/
def register_agent (api_key : String) (new_id : Nat) (store : List CredRow) :
    Except String (CredRow × List CredRow) :=
  let pre := api_key_prefix_of api_key
  match scalar_one_or_none (store.filter fun r => r.api_key_prefix16 == pre) with
  | .error e => .error e
  | .ok (some existing) =>
      if pwd_verify api_key existing.api_key_hash then
        .ok (existing, store)
      else
        .error "400 API Key collision or invalid key for existing agent."
  | .ok none =>
      let row : CredRow :=
        { agent_id := new_id, api_key_prefix16 := pre, api_key_hash := pwd_hash api_key }
      .ok (row, store ++ [row])

/-- The store after registering the first of two keys that share the
16-character prefix `aaaaaaaaaaaaaaaa`. -/
def sharedPrefixStore1 : List CredRow :=
  [{ agent_id := 1, api_key_prefix16 := "aaaaaaaaaaaaaaaa",
     api_key_hash := pwd_hash "aaaaaaaaaaaaaaaa-key-one" }]

/-- A handmade store holding rows for BOTH keys of the shared prefix (a state
the registration endpoint itself never produces). -/
def sharedPrefixStore2 : List CredRow :=
  [{ agent_id := 1, api_key_prefix16 := "aaaaaaaaaaaaaaaa",
     api_key_hash := pwd_hash "aaaaaaaaaaaaaaaa-key-one" },
   { agent_id := 2, api_key_prefix16 := "aaaaaaaaaaaaaaaa",
     api_key_hash := pwd_hash "aaaaaaaaaaaaaaaa-key-two" }]

/-- C3 fails on the code: two distinct keys sharing a 16-character prefix can
never both be registered — the second registration raises the 400 collision
error — and in a state that nevertheless holds rows for both keys, the
prefix SELECT's `scalar_one_or_none` raises `MultipleResultsFound`, so
NEITHER key authenticates, contradicting "both keys authenticate as their
respective agents". -/
theorem c3_shared_prefix_counterexample :
    register_agent "aaaaaaaaaaaaaaaa-key-two" 2 sharedPrefixStore1 =
        .error "400 API Key collision or invalid key for existing agent." ∧
      get_agent_from_api_key "aaaaaaaaaaaaaaaa-key-one" sharedPrefixStore2 =
        .error "MultipleResultsFound" ∧
      get_agent_from_api_key "aaaaaaaaaaaaaaaa-key-two" sharedPrefixStore2 =
        .error "MultipleResultsFound" := by
  exact ⟨rfl, rfl, rfl⟩

/-- C3 amended: a registration whose key's prefix matches an existing row but
whose full key fails hash verification is rejected with the 400 collision
error (so two distinct keys sharing a prefix are never both registered), and
an authentication request whose key's prefix matches the stored row but whose
full value fails hash verification is rejected with 401. -/
theorem c3_prefix_hit_hash_mismatch_rejected
    (store : List CredRow) (key : String) (row : CredRow) (new_id : Nat)
    (hsel : store.filter
        (fun r => r.api_key_prefix16 == api_key_prefix_of key) = [row])
    (hver : pwd_verify key row.api_key_hash = false) :
    register_agent key new_id store =
        .error "400 API Key collision or invalid key for existing agent." ∧
      get_agent_from_api_key key store = .error "401 Invalid API key" := by
  constructor
  · rw [register_agent, hsel]
    simp [scalar_one_or_none, hver]
  · rw [get_agent_from_api_key, hsel]
    simp [scalar_one_or_none, hver]

/-- Witness for `c3_prefix_hit_hash_mismatch_rejected`: the second
shared-prefix key against the store holding only the first key's row. -/
theorem c3_prefix_hit_hash_mismatch_rejected_witness :
    register_agent "aaaaaaaaaaaaaaaa-key-two" 2 sharedPrefixStore1 =
        .error "400 API Key collision or invalid key for existing agent." ∧
      get_agent_from_api_key "aaaaaaaaaaaaaaaa-key-two" sharedPrefixStore1 =
        .error "401 Invalid API key" :=
  c3_prefix_hit_hash_mismatch_rejected sharedPrefixStore1
    "aaaaaaaaaaaaaaaa-key-two"
    { agent_id := 1, api_key_prefix16 := "aaaaaaaaaaaaaaaa",
      api_key_hash := pwd_hash "aaaaaaaaaaaaaaaa-key-one" }
    2 (by decide) (by decide)

/- ------------------------------------------------------------------
Config sync service (src/n7-core/n7_core/config_sync/service.py).
------------------------------------------------------------------ -/

/-- Model of Fernet encryption under the Core's SECRET_KEY
(`_encrypt_for_storage`).  The random nonce of real Fernet plays no role in
any claim, so encryption is modelled as an invertible tag. -/
def encrypt_for_storage (plain : String) : String := "fernet$" ++ plain

/-- Model of `_decrypt_from_storage`; fails on a token that was not produced
by `encrypt_for_storage` (real Fernet raises `InvalidToken`). -/
def decrypt_from_storage (enc : String) : Option String :=
  if enc.startsWith "fernet$" then some (enc.drop 7) else none

/-- An `agent_configs` row (models/agent_config.py). -/
structure AgentConfigRow where
  agent_id : String
  nats_url_enc : Option String
  core_api_url_enc : Option String
  zone : String
  log_level : String
  environment : String
  probe_interval_seconds : Nat
  detection_thresholds : Option (List (String × JVal))
  enabled_probes : Option (List String)
  capabilities : Option (List String)
  allowed_actions : Option (List String)
  action_defaults : Option (List (String × JVal))
  max_concurrent_actions : Option Nat
  config_version : Nat
deriving Repr, DecidableEq

/-- Python `x or default` on an optional dict/list argument: `None` and an
empty collection are both replaced by the default. -/
def pyOr (x : Option (List α)) (d : List α) : Option (List α) :=
  match x with
  | none => some d
  | some v => if v.isEmpty then some d else some v

/-- The keyword arguments of `provision_agent_config`. -/
structure ProvisionArgs where
  agent_type : String
  nats_url : String
  core_api_url : String
  zone : String := "default"
  log_level : String := "INFO"
  environment : String := "production"
  probe_interval_seconds : Nat := 10
  detection_thresholds : Option (List (String × JVal)) := none
  enabled_probes : Option (List String) := none
  capabilities : Option (List String) := none
  allowed_actions : Option (List String) := none
  action_defaults : Option (List (String × JVal)) := none
  max_concurrent_actions : Option Nat := none
deriving Repr

/-- Translation of `ConfigSyncService.provision_agent_config` for one agent:
type-specific defaulting, then either update-in-place with
`config_version += 1` or creation with `config_version = 1`. -/
def provision_agent_config (agent_id : String) (a : ProvisionArgs)
    (existing : Option AgentConfigRow) : AgentConfigRow :=
  -- Sentinel defaults
  let detection_thresholds :=
    if a.agent_type == "sentinel" then
      pyOr a.detection_thresholds
        [("cpu_threshold", .i 80), ("mem_threshold", .i 85),
         ("disk_threshold", .i 90), ("load_multiplier", .i 2)]
    else a.detection_thresholds
  let enabled_probes :=
    if a.agent_type == "sentinel" then
      pyOr a.enabled_probes ["system", "network", "process", "file"]
    else a.enabled_probes
  -- Striker defaults
  let capabilities :=
    if a.agent_type == "striker" then
      pyOr a.capabilities ["network_block", "process_kill", "file_quarantine"]
    else a.capabilities
  let action_defaults :=
    if a.agent_type == "striker" then
      pyOr a.action_defaults [("network_block", .i 3600)]
    else a.action_defaults
  let encrypted_nats := encrypt_for_storage a.nats_url
  let encrypted_core := encrypt_for_storage a.core_api_url
  match existing with
  | some cfg =>
      { cfg with
        nats_url_enc := some encrypted_nats,
        core_api_url_enc := some encrypted_core,
        zone := a.zone,
        log_level := a.log_level,
        environment := a.environment,
        probe_interval_seconds := a.probe_interval_seconds,
        detection_thresholds := detection_thresholds.elim cfg.detection_thresholds some,
        enabled_probes := enabled_probes.elim cfg.enabled_probes some,
        capabilities := capabilities.elim cfg.capabilities some,
        allowed_actions := a.allowed_actions.elim cfg.allowed_actions some,
        action_defaults := action_defaults.elim cfg.action_defaults some,
        max_concurrent_actions :=
          a.max_concurrent_actions.elim cfg.max_concurrent_actions some,
        config_version := cfg.config_version + 1 }
  | none =>
      { agent_id := agent_id,
        nats_url_enc := some encrypted_nats,
        core_api_url_enc := some encrypted_core,
        zone := a.zone,
        log_level := a.log_level,
        environment := a.environment,
        probe_interval_seconds := a.probe_interval_seconds,
        detection_thresholds := detection_thresholds,
        enabled_probes := enabled_probes,
        capabilities := capabilities,
        allowed_actions := a.allowed_actions,
        action_defaults := action_defaults,
        max_concurrent_actions := a.max_concurrent_actions,
        config_version := 1 }

/-- The partial-update dictionary passed to `upsert_config`; `some` models a
present key. -/
structure ConfigDict where
  nats_url : Option String := none
  core_api_url : Option String := none
  log_level : Option String := none
  environment : Option String := none
  zone : Option String := none
  probe_interval_seconds : Option Nat := none
  detection_thresholds : Option (List (String × JVal)) := none
  enabled_probes : Option (List String) := none
  capabilities : Option (List String) := none
  allowed_actions : Option (List String) := none
  action_defaults : Option (List (String × JVal)) := none
  max_concurrent_actions : Option Nat := none
deriving Repr

/-- Translation of `ConfigSyncService.upsert_config`: a missing row is
auto-provisioned with defaults at `config_version = 0`, the present keys of
`config_dict` are applied, and `config_version += 1` runs on every call. -/
def upsert_config (agent_id : String) (cd : ConfigDict) (agent_type : String)
    (nats_url_setting core_api_url_setting environment_setting : String)
    (existing : Option AgentConfigRow) : AgentConfigRow :=
  let cfg : AgentConfigRow :=
    match existing with
    | some cfg => cfg
    | none =>
        { agent_id := agent_id,
          nats_url_enc := some (encrypt_for_storage nats_url_setting),
          core_api_url_enc := some (encrypt_for_storage core_api_url_setting),
          zone := "default",
          log_level := "INFO",
          environment := environment_setting,
          probe_interval_seconds := 10,
          detection_thresholds :=
            if agent_type == "sentinel" then
              some [("cpu_threshold", .i 80), ("mem_threshold", .i 85),
                    ("disk_threshold", .i 90), ("load_multiplier", .i 2)]
            else none,
          enabled_probes :=
            if agent_type == "sentinel" then
              some ["system", "network", "process", "file"]
            else none,
          capabilities :=
            if agent_type == "striker" then
              some ["network_block", "process_kill", "file_quarantine"]
            else none,
          allowed_actions := none,
          action_defaults :=
            if agent_type == "striker" then some [("network_block", .i 3600)]
            else none,
          max_concurrent_actions := none,
          config_version := 0 }
  let cfg := { cfg with
    nats_url_enc := (cd.nats_url.map encrypt_for_storage).elim cfg.nats_url_enc some,
    core_api_url_enc :=
      (cd.core_api_url.map encrypt_for_storage).elim cfg.core_api_url_enc some,
    log_level := cd.log_level.getD cfg.log_level,
    environment := cd.environment.getD cfg.environment,
    zone := cd.zone.getD cfg.zone,
    probe_interval_seconds :=
      cd.probe_interval_seconds.getD cfg.probe_interval_seconds,
    detection_thresholds := cd.detection_thresholds.elim cfg.detection_thresholds some,
    enabled_probes := cd.enabled_probes.elim cfg.enabled_probes some,
    capabilities := cd.capabilities.elim cfg.capabilities some,
    allowed_actions := cd.allowed_actions.elim cfg.allowed_actions some,
    action_defaults := cd.action_defaults.elim cfg.action_defaults some,
    max_concurrent_actions :=
      cd.max_concurrent_actions.elim cfg.max_concurrent_actions some }
  { cfg with config_version := cfg.config_version + 1 }

/-- The operations of the config-sync service on one agent's config row. -/
inductive ConfigOp where
  | provision (a : ProvisionArgs)
  | upsert (cd : ConfigDict) (agent_type nats_url core_api_url environment : String)
  | read (api_key : String)

/-- State transition of one config-sync operation on an agent's row.
`get_config_for_agent` only SELECTs and re-encrypts for transport; it never
writes, so `read` is the identity on the stored row. -/
def applyConfigOp (agent_id : String) : ConfigOp → Option AgentConfigRow →
    Option AgentConfigRow
  | .provision a, s => some (provision_agent_config agent_id a s)
  | .upsert cd t nu cu env, s => some (upsert_config agent_id cd t nu cu env s)
  | .read _, s => s

/-- The `config_version` visible in a state (0 when no row exists, as for
SQL `NULL`-free comparisons below). -/
def versionOf : Option AgentConfigRow → Nat
  | none => 0
  | some c => c.config_version

/-- C6: per agent, `config_version` never decreases under any operation
(reads change nothing at all), both write operations strictly increase it —
auto-provisioning a missing row included — and any row existing after an
operation has `config_version ≥ 1`. -/
theorem c6_config_version_monotone (agent_id : String)
    (s : Option AgentConfigRow) (op : ConfigOp)
    (hinv : ∀ c, s = some c → 1 ≤ c.config_version) :
    versionOf s ≤ versionOf (applyConfigOp agent_id op s) ∧
      (∀ a, versionOf s < versionOf (applyConfigOp agent_id (.provision a) s)) ∧
      (∀ cd t nu cu env,
        versionOf s < versionOf (applyConfigOp agent_id (.upsert cd t nu cu env) s)) ∧
      (∀ k, applyConfigOp agent_id (.read k) s = s) ∧
      (∀ c, applyConfigOp agent_id op s = some c → 1 ≤ c.config_version) := by
  have hprov : ∀ a, versionOf s <
      versionOf (applyConfigOp agent_id (.provision a) s) := by
    intro a
    cases s with
    | none => simp [applyConfigOp, provision_agent_config, versionOf]
    | some c => simp [applyConfigOp, provision_agent_config, versionOf]
  have hups : ∀ cd t nu cu env, versionOf s <
      versionOf (applyConfigOp agent_id (.upsert cd t nu cu env) s) := by
    intro cd t nu cu env
    cases s with
    | none => simp [applyConfigOp, upsert_config, versionOf]
    | some c => simp [applyConfigOp, upsert_config, versionOf]
  refine ⟨?_, hprov, hups, fun _ => rfl, ?_⟩
  · cases op with
    | provision a => exact le_of_lt (hprov a)
    | upsert cd t nu cu env => exact le_of_lt (hups cd t nu cu env)
    | read k => exact le_refl _
  · intro c hc
    cases op with
    | provision a =>
        have h := hprov a
        rw [hc] at h
        cases s with
        | none => simpa [versionOf] using h
        | some c0 =>
            have := hinv c0 rfl
            simp only [versionOf] at h
            omega
    | upsert cd t nu cu env =>
        have h := hups cd t nu cu env
        rw [hc] at h
        cases s with
        | none => simpa [versionOf] using h
        | some c0 =>
            have := hinv c0 rfl
            simp only [versionOf] at h
            omega
    | read k =>
        simp only [applyConfigOp] at hc
        exact hinv c hc

/-- Witness for `c6_config_version_monotone`: an upsert of an empty config
dict on a missing row (auto-provision) goes from version 0 to version 1. -/
theorem c6_config_version_monotone_witness :
    versionOf none ≤ versionOf (applyConfigOp "agent-1"
        (.upsert {} "striker" "nats://core:4222" "http://core:8000" "production")
        none) ∧
      (∀ a, versionOf none < versionOf (applyConfigOp "agent-1" (.provision a) none)) ∧
      (∀ cd t nu cu env, versionOf none <
        versionOf (applyConfigOp "agent-1" (.upsert cd t nu cu env) none)) ∧
      (∀ k, applyConfigOp "agent-1" (.read k) none = none) ∧
      (∀ c, applyConfigOp "agent-1"
          (.upsert {} "striker" "nats://core:4222" "http://core:8000" "production")
          none = some c → 1 ≤ c.config_version) :=
  c6_config_version_monotone "agent-1" none
    (.upsert {} "striker" "nats://core:4222" "http://core:8000" "production")
    (fun c h => by cases h)

/- ------------------------------------------------------------------
Threat correlator: alert creation with LLM-dispatch cooldown
(src/n7-core/n7_core/threat_correlator/service.py, `_create_alert`).
------------------------------------------------------------------ -/

/-- `ALERT_COOLDOWN` of `ThreatCorrelatorService` (seconds). -/
def ALERT_COOLDOWN : Int := 300

/-- The Redis cooldown keyspace: an association of keys to absolute expiry
instants (`SET ... EX ttl` stores until `now + ttl`). -/
def redis_get_present (cache : List (String × Int)) (key : String) (now : Int) :
    Bool :=
  match cache.lookup key with
  | some expiry => decide (now < expiry)
  | none => false

/-- `SET key ... EX ttl`: (re)binds the key to its new expiry instant. -/
def redis_set_ex (cache : List (String × Int)) (key : String) (expiry : Int) :
    List (String × Int) :=
  (key, expiry) :: cache.filter fun kv => kv.1 != key

/-- `f"n7:alert_cooldown:{rule_id}:{source_identifier}"`. -/
def cooldown_keyOf (rule_id source : String) : String :=
  "n7:alert_cooldown:" ++ rule_id ++ ":" ++ source

/-- One observable side effect of `_create_alert`, in program order. -/
inductive AlertEffect where
  | persistAlert (rule_id source : String) (reasoning : List (String × JVal))
      (threat_score : Int) (severity : String)
  | setCooldown (key : String) (expiry : Int)
  | publishAnalyze (rule_id source : String) (threat_score : Int)
      (severity : String)
deriving Repr, DecidableEq

/-- One invocation of `_create_alert`: the rule's static fields, the source,
the event ids and count, the multi-stage flag, and the invocation instant. -/
structure Firing where
  rule_id : String
  rule_name : String
  rule_description : String
  rule_severity : Option String
  mitre_tactics : List String
  mitre_techniques : List String
  source : String
  event_ids : List String
  count : Int
  is_multi_stage : Bool
  now : Int
deriving Repr

structure CreateAlertResult where
  cache : List (String × Int)
  effects : List AlertEffect

/-- Translation of `ThreatCorrelatorService._create_alert`: read the cooldown
key, ALWAYS persist the alert row; when the key is present stop there, else
set the cooldown (TTL 300 s) and then publish the bundle on `n7.llm.analyze`.
The effect list preserves the program order of the side effects. -/
def create_alert (f : Firing) (cache : List (String × Int)) : CreateAlertResult :=
  let ckey := cooldown_keyOf f.rule_id f.source
  let in_cooldown := redis_get_present cache ckey f.now
  let severity := f.rule_severity.getD "medium"
  let reasoning := mkReasoning f.rule_name f.rule_description f.count f.source
    f.mitre_tactics f.mitre_techniques f.is_multi_stage
  let threat_score := calculate_threat_score severity f.is_multi_stage f.rule_id
  let persist := AlertEffect.persistAlert f.rule_id f.source reasoning
    threat_score severity
  if in_cooldown then
    { cache := cache, effects := [persist] }
  else
    { cache := redis_set_ex cache ckey (f.now + ALERT_COOLDOWN),
      effects := [persist,
                  .setCooldown ckey (f.now + ALERT_COOLDOWN),
                  .publishAnalyze f.rule_id f.source threat_score severity] }

/-- A sequence of `_create_alert` invocations threaded through the cooldown
cache; the trace tags every effect with its invocation instant. -/
def run_alerts : List Firing → List (String × Int) → List (Int × AlertEffect)
  | [], _ => []
  | f :: fs, cache =>
      let r := create_alert f cache
      r.effects.map (fun e => (f.now, e)) ++ run_alerts fs r.cache

/-- The instants of the `llm.analyze` publishes for rule `R` and source `S`
in a trace. -/
def publishesFor (R S : String) (trace : List (Int × AlertEffect)) : List Int :=
  trace.filterMap fun te =>
    match te.2 with
    | .publishAnalyze r s _ _ => if r == R && s == S then some te.1 else none
    | _ => none

theorem lookup_redis_set_ex_self (cache : List (String × Int)) (k : String)
    (e : Int) : (redis_set_ex cache k e).lookup k = some e := by
  simp [redis_set_ex, List.lookup]

theorem lookup_filter_ne (c : List (String × Int)) (k k' : String)
    (h : k ≠ k') : (c.filter fun kv => kv.1 != k').lookup k = c.lookup k := by
  induction c with
  | nil => rfl
  | cons hd tl ih =>
      obtain ⟨a, b⟩ := hd
      by_cases ha : a = k'
      · subst ha
        have hk : (k == a) = false := by simp [h]
        simp [List.filter_cons, List.lookup, hk, ih]
      · have : (a != k') = true := by simp [ha]
        simp only [List.filter_cons, this, if_true]
        by_cases hk : k = a
        · subst hk
          simp [List.lookup]
        · have hk' : (k == a) = false := by simp [hk]
          simp [List.lookup, hk', ih]

theorem lookup_redis_set_ex_other (cache : List (String × Int)) (k k' : String)
    (e : Int) (h : k ≠ k') :
    (redis_set_ex cache k' e).lookup k = cache.lookup k := by
  have hk : (k == k') = false := by simp [h]
  simp [redis_set_ex, List.lookup, hk, lookup_filter_ne _ _ _ h]

/-- While the cooldown key for `(R, S)` is bound until `e`, every later
publish for `(R, S)` happens no earlier than `e`. -/
theorem run_alerts_publishes_ge (R S : String) (fs : List Firing)
    (cache : List (String × Int)) (e : Int)
    (hkey : cache.lookup (cooldown_keyOf R S) = some e) :
    ∀ t ∈ publishesFor R S (run_alerts fs cache), e ≤ t := by
  induction fs generalizing cache e with
  | nil => simp [run_alerts, publishesFor]
  | cons f fs ih =>
      intro t ht
      rw [run_alerts] at ht
      rw [publishesFor, List.filterMap_append] at ht
      rcases List.mem_append.1 ht with hhead | htail
      case _ =>
        -- a publish among f's own effects
        by_cases hc : redis_get_present cache (cooldown_keyOf f.rule_id f.source) f.now
        · simp [create_alert, hc, publishesFor] at hhead
        · simp only [create_alert, hc, Bool.false_eq_true, if_false] at hhead
          simp only [List.map_cons, List.map_nil, List.filterMap] at hhead
          by_cases hpair : (f.rule_id == R && f.source == S) = true
          · simp only [hpair, if_true] at hhead
            simp at hhead
            subst hhead
            -- keys coincide, so the key was expired: e ≤ f.now
            have hp : f.rule_id = R ∧ f.source = S := by simpa using hpair
            have hkeq : cooldown_keyOf f.rule_id f.source = cooldown_keyOf R S := by
              rw [hp.1, hp.2]
            rw [hkeq] at hc
            rw [redis_get_present, hkey] at hc
            simpa using le_of_not_lt (by simpa using hc)
          · simp [hpair] at hhead
      case _ =>
        -- a publish of a later invocation
        by_cases hc : redis_get_present cache (cooldown_keyOf f.rule_id f.source) f.now
        · have hcc : (create_alert f cache).cache = cache := by
            simp [create_alert, hc]
          rw [hcc] at htail
          exact ih cache e hkey t htail
        · have hcc : (create_alert f cache).cache =
              redis_set_ex cache (cooldown_keyOf f.rule_id f.source)
                (f.now + ALERT_COOLDOWN) := by
            simp [create_alert, hc]
          rw [hcc] at htail
          by_cases hkeq : cooldown_keyOf R S = cooldown_keyOf f.rule_id f.source
          · -- the firing rebinds our key to f.now + 300, and the old binding
            -- had expired (e ≤ f.now), so later publishes are ≥ e
            have hexp : e ≤ f.now := by
              rw [← hkeq] at hc
              rw [redis_get_present, hkey] at hc
              simpa using le_of_not_lt (by simpa using hc)
            have hkey' : (redis_set_ex cache (cooldown_keyOf f.rule_id f.source)
                (f.now + ALERT_COOLDOWN)).lookup (cooldown_keyOf R S) =
                some (f.now + ALERT_COOLDOWN) := by
              rw [hkeq]
              exact lookup_redis_set_ex_self _ _ _
            have := ih _ _ hkey' t htail
            have h300 : (0 : Int) ≤ ALERT_COOLDOWN := by norm_num [ALERT_COOLDOWN]
            omega
          · have hkey' : (redis_set_ex cache (cooldown_keyOf f.rule_id f.source)
                (f.now + ALERT_COOLDOWN)).lookup (cooldown_keyOf R S) = some e := by
              rw [lookup_redis_set_ex_other _ _ _ _ hkeq]
              exact hkey
            exact ih _ _ hkey' t htail

/-- Any two publishes for the same `(R, S)` in a trace are at least 300
seconds apart. -/
theorem run_alerts_publishes_separated (R S : String) (fs : List Firing)
    (cache : List (String × Int)) :
    (publishesFor R S (run_alerts fs cache)).Pairwise
      (fun a b => a + ALERT_COOLDOWN ≤ b) := by
  induction fs generalizing cache with
  | nil => simp [run_alerts, publishesFor]
  | cons f fs ih =>
      rw [run_alerts, publishesFor, List.filterMap_append]
      by_cases hc : redis_get_present cache (cooldown_keyOf f.rule_id f.source) f.now
      · have h1 : List.filterMap
            (fun te => match te.2 with
              | .publishAnalyze r s _ _ => if r == R && s == S then some te.1 else none
              | _ => none)
            ((create_alert f cache).effects.map fun e => (f.now, e)) = [] := by
          simp [create_alert, hc]
        have h2 : (create_alert f cache).cache = cache := by
          simp [create_alert, hc]
        rw [h1, h2, List.nil_append]
        exact ih cache
      · have h2 : (create_alert f cache).cache =
            redis_set_ex cache (cooldown_keyOf f.rule_id f.source)
              (f.now + ALERT_COOLDOWN) := by
          simp [create_alert, hc]
        by_cases hpair : (f.rule_id == R && f.source == S) = true
        · have hp : f.rule_id = R ∧ f.source = S := by simpa using hpair
          have h1 : List.filterMap
              (fun te => match te.2 with
                | .publishAnalyze r s _ _ => if r == R && s == S then some te.1 else none
                | _ => none)
              ((create_alert f cache).effects.map fun e => (f.now, e)) = [f.now] := by
            simp [create_alert, hc]
            simp [hp.1, hp.2]
          rw [h1, h2]
          refine List.Pairwise.cons ?_ (ih _)
          intro b hb
          have hkeq : cooldown_keyOf R S = cooldown_keyOf f.rule_id f.source := by
            rw [hp.1, hp.2]
          have hkey' : (redis_set_ex cache (cooldown_keyOf f.rule_id f.source)
              (f.now + ALERT_COOLDOWN)).lookup (cooldown_keyOf R S) =
              some (f.now + ALERT_COOLDOWN) := by
            rw [hkeq]
            exact lookup_redis_set_ex_self _ _ _
          exact run_alerts_publishes_ge R S fs _ _ hkey' b hb
        · have hnp : f.rule_id = R → ¬f.source = S := by simpa using hpair
          have h1 : List.filterMap
              (fun te => match te.2 with
                | .publishAnalyze r s _ _ => if r == R && s == S then some te.1 else none
                | _ => none)
              ((create_alert f cache).effects.map fun e => (f.now, e)) = [] := by
            simp [create_alert, hc]
            exact hnp
          rw [h1, h2, List.nil_append]
          exact ih _

/-- C4: across any sequence of rule firings, any two `llm.analyze` publishes
for the same rule `R` and source `S` are ≥ 300 s apart (so at most one falls
in any 300-second window); every firing persists its alert row as its first
side effect even during cooldown; and when a publish happens, the cooldown
key (TTL 300 s) is set strictly before it in the effect order. -/
theorem c4_alert_cooldown (R S : String) (fs : List Firing)
    (cache0 : List (String × Int)) (f : Firing) (cache : List (String × Int))
    (hnotcool : redis_get_present cache (cooldown_keyOf f.rule_id f.source) f.now
      = false) :
    (publishesFor R S (run_alerts fs cache0)).Pairwise
        (fun a b => a + ALERT_COOLDOWN ≤ b) ∧
      (∀ g gcache, ∃ rest, (create_alert g gcache).effects =
        .persistAlert g.rule_id g.source
          (mkReasoning g.rule_name g.rule_description g.count g.source
            g.mitre_tactics g.mitre_techniques g.is_multi_stage)
          (calculate_threat_score (g.rule_severity.getD "medium")
            g.is_multi_stage g.rule_id)
          (g.rule_severity.getD "medium") :: rest) ∧
      (create_alert f cache).effects =
        [.persistAlert f.rule_id f.source
          (mkReasoning f.rule_name f.rule_description f.count f.source
            f.mitre_tactics f.mitre_techniques f.is_multi_stage)
          (calculate_threat_score (f.rule_severity.getD "medium")
            f.is_multi_stage f.rule_id)
          (f.rule_severity.getD "medium"),
         .setCooldown (cooldown_keyOf f.rule_id f.source)
           (f.now + ALERT_COOLDOWN),
         .publishAnalyze f.rule_id f.source
           (calculate_threat_score (f.rule_severity.getD "medium")
             f.is_multi_stage f.rule_id)
           (f.rule_severity.getD "medium")] := by
  refine ⟨run_alerts_publishes_separated R S fs cache0, ?_, ?_⟩
  · intro g gcache
    by_cases hc : redis_get_present gcache (cooldown_keyOf g.rule_id g.source) g.now
    · exact ⟨[], by simp [create_alert, hc]⟩
    · refine ⟨[.setCooldown (cooldown_keyOf g.rule_id g.source)
          (g.now + ALERT_COOLDOWN),
        .publishAnalyze g.rule_id g.source
          (calculate_threat_score (g.rule_severity.getD "medium")
            g.is_multi_stage g.rule_id)
          (g.rule_severity.getD "medium")], ?_⟩
      simp [create_alert, hc]
  · simp [create_alert, hnotcool]

/- ------------------------------------------------------------------
Striker action executor and rollback manager
(src/n7-strikers/n7_strikers/action_executor/service.py,
 src/n7-strikers/n7_strikers/rollback_manager/service.py).
------------------------------------------------------------------ -/

/-- `_ROLLBACK_MAP`: action_type ↦ (rollback_action_type, auto_rollback_seconds);
`none` seconds means no auto-rollback. -/
def ROLLBACK_MAP : List (String × (String × Option Int)) :=
  [("isolate_host", ("unisolate_host", none)),
   ("network_block", ("network_unblock", some 3600))]

/-- A rollback-ledger entry (`RollbackManagerService._rollback_ledger`). -/
structure LedgerEntry where
  action_id : String
  action_type : String
  rollback_action_type : String
  rollback_params : List (String × JVal)
  registered_at : Int
  auto_rollback_at : Option Int
  rolled_back : Bool
deriving Repr, DecidableEq

/-- Translation of `RollbackManagerService.register_rollback`.  The
`if auto_rollback_seconds:` guard is Python truthiness: only a non-`None`,
non-zero value sets the `auto_rollback_at` deadline `now + seconds`. -/
def register_rollback (now : Int) (action_id action_type rollback_action_type : String)
    (rollback_params : List (String × JVal)) (auto_rollback_seconds : Option Int) :
    LedgerEntry :=
  { action_id := action_id,
    action_type := action_type,
    rollback_action_type := rollback_action_type,
    rollback_params := rollback_params,
    registered_at := now,
    auto_rollback_at :=
      match auto_rollback_seconds with
      | some s => if s != 0 then some (now + s) else none
      | none => none,
    rolled_back := false }

/-- The payload `_execute_rollback` publishes on the striker's own subject
`n7.actions.{AGENT_ID}`. -/
structure RollbackPayload where
  action_id : String
  action_type : String
  params : List (String × JVal)
  is_rollback : Bool
  original_action_id : String
deriving Repr, DecidableEq

/-- The rollback payload derived from a ledger entry. -/
def payloadOf (e : LedgerEntry) : RollbackPayload :=
  { action_id := "rollback_" ++ e.action_id,
    action_type := e.rollback_action_type,
    params := e.rollback_params,
    is_rollback := true,
    original_action_id := e.action_id }

/-- One pass of `_rollback_scheduler_loop` over a single ledger entry at
instant `now` (NATS connected, so a triggered publish also flips
`rolled_back`); the loop processes entries independently. -/
def scheduler_tick_entry (now : Int) (e : LedgerEntry) :
    LedgerEntry × Option RollbackPayload :=
  if e.rolled_back then (e, none)
  else
    match e.auto_rollback_at with
    | some t =>
        if now ≥ t then ({ e with rolled_back := true }, some (payloadOf e))
        else (e, none)
    | none => (e, none)

/-- A run of scheduler passes at the given instants over one entry,
collecting (instant, payload) publications. -/
def run_ticks_entry : List Int → LedgerEntry → LedgerEntry × List (Int × RollbackPayload)
  | [], e => (e, [])
  | t :: ts, e =>
      let r := scheduler_tick_entry t e
      let rest := run_ticks_entry ts r.1
      (rest.1, (match r.2 with | some pay => [(t, pay)] | none => []) ++ rest.2)

/-- The scheduler's instants: `n` passes starting at `t0`, 30 s apart
(`await asyncio.sleep(30)` between passes). -/
def tick_times (t0 : Int) : Nat → List Int
  | 0 => []
  | n + 1 => t0 :: tick_times (t0 + 30) n

theorem run_ticks_entry_rolled (ts : List Int) (e : LedgerEntry)
    (h : e.rolled_back = true) : run_ticks_entry ts e = (e, []) := by
  induction ts with
  | nil => rfl
  | cons t ts ih => simp [run_ticks_entry, scheduler_tick_entry, h, ih]

theorem run_ticks_entry_no_deadline (ts : List Int) (e : LedgerEntry)
    (hfalse : e.rolled_back = false) (hnone : e.auto_rollback_at = none) :
    run_ticks_entry ts e = (e, []) := by
  induction ts with
  | nil => rfl
  | cons t ts ih => simp [run_ticks_entry, scheduler_tick_entry, hfalse, hnone, ih]

/-- A pending entry with deadline `d` is published exactly once by a
30-second-cadence scheduler whose first pass is not later than one tick past
the deadline and whose passes cover the deadline; the publish instant lies in
`[d, d + 30)`. -/
theorem run_ticks_entry_publishes_once (d : Int) (n : Nat) (t0 : Int)
    (e : LedgerEntry) (hd : e.auto_rollback_at = some d)
    (hfalse : e.rolled_back = false)
    (hstart : t0 < d + 30) (hcover : d ≤ t0 + 30 * ((n : Int) - 1)) :
    ∃ t, d ≤ t ∧ t < d + 30 ∧
      (run_ticks_entry (tick_times t0 n) e).2 = [(t, payloadOf e)] := by
  induction n generalizing t0 with
  | zero => simp at hcover; omega
  | succ n ih =>
      rw [tick_times]
      by_cases hreach : t0 ≥ d
      · refine ⟨t0, hreach, hstart, ?_⟩
        simp [run_ticks_entry, scheduler_tick_entry, hfalse, hd, hreach]
        rw [run_ticks_entry_rolled _ _ rfl]
      · have hstep : (scheduler_tick_entry t0 e) = (e, none) := by
          simp [scheduler_tick_entry, hfalse, hd, hreach]
        obtain ⟨t, h1, h2, h3⟩ := ih (t0 + 30)
          (by omega)
          (by push_cast at hcover ⊢; omega)
        refine ⟨t, h1, h2, ?_⟩
        simp [run_ticks_entry, hstep, h3]

/-- C7: the executor's rollback policy maps `network_block` to
`network_unblock` with a 3600 s auto-rollback and `isolate_host` to
`unisolate_host` with none; a registered `network_block` entry carries the
deadline `registered_at + 3600` and a covering 30-second scheduler publishes
its `network_unblock` payload (tagged with the original action id) exactly
once, within `[registered_at + 3600, registered_at + 3600 + 30)`; a
registered `isolate_host` entry has no deadline and is never auto-published. -/
theorem c7_rollback_schedule (rnow : Int) (aid : String)
    (ps : List (String × JVal)) (n : Nat) (t0 : Int)
    (hstart : t0 < rnow + 3600 + 30)
    (hcover : rnow + 3600 ≤ t0 + 30 * ((n : Int) - 1)) :
    ROLLBACK_MAP.lookup "network_block" = some ("network_unblock", some 3600) ∧
    ROLLBACK_MAP.lookup "isolate_host" = some ("unisolate_host", none) ∧
    (register_rollback rnow aid "network_block" "network_unblock" ps
        (some 3600)).auto_rollback_at = some (rnow + 3600) ∧
    (∃ t, rnow + 3600 ≤ t ∧ t < rnow + 3600 + 30 ∧
      (run_ticks_entry (tick_times t0 n)
          (register_rollback rnow aid "network_block" "network_unblock" ps
            (some 3600))).2 =
        [(t, { action_id := "rollback_" ++ aid,
               action_type := "network_unblock",
               params := ps,
               is_rollback := true,
               original_action_id := aid })]) ∧
    (register_rollback rnow aid "isolate_host" "unisolate_host" ps
        none).auto_rollback_at = none ∧
    (∀ ts, (run_ticks_entry ts
        (register_rollback rnow aid "isolate_host" "unisolate_host" ps none)).2
      = []) := by
  refine ⟨rfl, rfl, by simp [register_rollback], ?_, by simp [register_rollback], ?_⟩
  · obtain ⟨t, h1, h2, h3⟩ := run_ticks_entry_publishes_once (rnow + 3600) n t0
      (register_rollback rnow aid "network_block" "network_unblock" ps (some 3600))
      (by simp [register_rollback]) (by simp [register_rollback]) hstart hcover
    exact ⟨t, h1, h2, by simpa [payloadOf, register_rollback] using h3⟩
  · intro ts
    have := run_ticks_entry_no_deadline ts
      (register_rollback rnow aid "isolate_host" "unisolate_host" ps none)
      (by simp [register_rollback]) (by simp [register_rollback])
    simp [this]

/-- Witness for `c7_rollback_schedule`: registration at 0, scheduler from 0
with 121 passes (covering the 3600 s deadline). -/
theorem c7_rollback_schedule_witness :
    (0 : Int) < 0 + 3600 + 30 ∧ (0 : Int) + 3600 ≤ 0 + 30 * ((121 : Nat) - 1 : Int) ∧
    (ROLLBACK_MAP.lookup "network_block" = some ("network_unblock", some 3600) ∧
     ROLLBACK_MAP.lookup "isolate_host" = some ("unisolate_host", none) ∧
     (register_rollback 0 "act-1" "network_block" "network_unblock" []
         (some 3600)).auto_rollback_at = some (0 + 3600) ∧
     (∃ t, 0 + 3600 ≤ t ∧ t < 0 + 3600 + 30 ∧
       (run_ticks_entry (tick_times 0 121)
           (register_rollback 0 "act-1" "network_block" "network_unblock" []
             (some 3600))).2 =
         [(t, { action_id := "rollback_" ++ "act-1",
                action_type := "network_unblock",
                params := [],
                is_rollback := true,
                original_action_id := "act-1" })]) ∧
     (register_rollback 0 "act-1" "isolate_host" "unisolate_host" []
         none).auto_rollback_at = none ∧
     (∀ ts, (run_ticks_entry ts
         (register_rollback 0 "act-1" "isolate_host" "unisolate_host" [] none)).2
       = [])) :=
  ⟨by norm_num, by norm_num,
    c7_rollback_schedule 0 "act-1" [] 121 0 (by norm_num) (by norm_num)⟩

/-- The action types with a registered handler (`self.actions` of
`ActionExecutorService.__init__`). -/
def registered_actions : List String :=
  ["kill_process", "network_block", "network_unblock", "isolate_host",
   "unisolate_host"]

/-- An incoming action message as `handle_action` reads it. -/
structure ActionMsg where
  action_id : String
  action_type : String
  params : List (String × JVal)
deriving Repr, DecidableEq

/-- One observable side effect of `ActionExecutorService.handle_action`, in
program order. -/
inductive StrikerEffect where
  | collectPre (action_id action_type : String) (params : List (String × JVal))
  | executeAction (action_type : String) (params : List (String × JVal))
  | collectPost (action_id action_type : String)
  | registerRollbackEff (action_id action_type rollback_action_type : String)
      (auto_rollback_seconds : Option Int)
  | publishStatus (action_id striker_id action_type status : String)
deriving Repr, DecidableEq

/-- Python `{**defaults, **params}`: message params take precedence over the
striker's per-action defaults. -/
def pyMergeDicts (defaults params : List (String × JVal)) :
    List (String × JVal) :=
  defaults.filter (fun kv => (params.lookup kv.1).isNone) ++ params

/-- Translation of `ActionExecutorService.handle_action` (NATS connected):
an unknown action type is logged and dropped BEFORE the allowlist check; a
type excluded by a non-null `allowed_actions` publishes a `rejected` status
and stops; otherwise pre-evidence, execution, post-evidence, rollback
registration per `_ROLLBACK_MAP`, and a `completed`/`failed` status report
happen in that order. -/
def handle_action (allowed_actions : Option (List String))
    (action_defaults : List (String × List (String × JVal)))
    (striker_id : String) (exec_success : Bool) (msg : ActionMsg) :
    List StrikerEffect :=
  if !(registered_actions.contains msg.action_type) then []
  else if (match allowed_actions with
           | some l => !(l.contains msg.action_type)
           | none => false) then
    [.publishStatus msg.action_id striker_id msg.action_type "rejected"]
  else
    let params := pyMergeDicts ((action_defaults.lookup msg.action_type).getD [])
      msg.params
    [.collectPre msg.action_id msg.action_type params,
     .executeAction msg.action_type params,
     .collectPost msg.action_id msg.action_type] ++
    (match ROLLBACK_MAP.lookup msg.action_type with
     | some (rt, secs) =>
        [.registerRollbackEff msg.action_id msg.action_type rt secs]
     | none => []) ++
    [.publishStatus msg.action_id striker_id msg.action_type
      (if exec_success then "completed" else "failed")]

/-- C8 fails on the code as universally stated: a message whose action type
has NO registered handler returns at the `Unknown action type` guard, BEFORE
the allowlist check — so with `allowed_actions = ["kill_process"]` a message
of type `firewall_flush` (not allowed, not registered) produces no effect at
all: no handler invocation, but also no `rejected` status publication. -/
theorem c8_unknown_type_counterexample :
    handle_action (some ["kill_process"]) [] "striker-1" true
        { action_id := "a-9", action_type := "firewall_flush", params := [] }
      = [] ∧
    ¬ (StrikerEffect.publishStatus "a-9" "striker-1" "firewall_flush" "rejected"
        ∈ handle_action (some ["kill_process"]) [] "striker-1" true
          { action_id := "a-9", action_type := "firewall_flush", params := [] }) := by
  constructor
  · rfl
  · intro h
    simp [handle_action, registered_actions] at h

/-- C8 amended: for a message whose action type HAS a registered handler,
a non-null `allowed_actions` that excludes the type yields exactly one
`rejected` status publication and nothing else — no execution, no pre/post
evidence collection, no rollback registration. -/
theorem c8_allowlist_rejects (l : List String)
    (action_defaults : List (String × List (String × JVal)))
    (striker_id : String) (exec_success : Bool) (msg : ActionMsg)
    (hreg : registered_actions.contains msg.action_type = true)
    (hnotallowed : l.contains msg.action_type = false) :
    handle_action (some l) action_defaults striker_id exec_success msg =
      [.publishStatus msg.action_id striker_id msg.action_type "rejected"] := by
  have hreg' : msg.action_type ∈ registered_actions := by simpa using hreg
  have hnot' : msg.action_type ∉ l := by simpa using hnotallowed
  simp [handle_action, hreg', hnot']

/-- Witness for `c8_allowlist_rejects`: a `network_block` message against a
striker allowing only `kill_process`. -/
theorem c8_allowlist_rejects_witness :
    registered_actions.contains "network_block" = true ∧
    (["kill_process"] : List String).contains "network_block" = false ∧
    handle_action (some ["kill_process"]) [] "striker-1" true
        { action_id := "a-7", action_type := "network_block", params := [] } =
      [.publishStatus "a-7" "striker-1" "network_block" "rejected"] :=
  ⟨by decide, by decide,
    c8_allowlist_rejects ["kill_process"] [] "striker-1" true
      { action_id := "a-7", action_type := "network_block", params := [] }
      (by decide) (by decide)⟩

/-- A concrete brute-force firing used to witness the cooldown theorem. -/
def demoFiring : Firing :=
  { rule_id := "brute_force",
    rule_name := "Brute Force Attack Detection",
    rule_description :=
      "Detects multiple failed authentication attempts from the same source",
    rule_severity := some "high",
    mitre_tactics := ["TA0001"],
    mitre_techniques := ["T1110"],
    source := "203.0.113.7",
    event_ids := ["e-1"],
    count := 5,
    is_multi_stage := false,
    now := 100 }

/-- Witness for `c4_alert_cooldown`: one brute-force firing from an empty
cooldown cache. -/
theorem c4_alert_cooldown_witness :
    redis_get_present [] (cooldown_keyOf demoFiring.rule_id demoFiring.source)
        demoFiring.now = false ∧
    ((publishesFor "brute_force" "203.0.113.7"
          (run_alerts [demoFiring] [])).Pairwise
        (fun a b => a + ALERT_COOLDOWN ≤ b) ∧
      (∀ g gcache, ∃ rest, (create_alert g gcache).effects =
        .persistAlert g.rule_id g.source
          (mkReasoning g.rule_name g.rule_description g.count g.source
            g.mitre_tactics g.mitre_techniques g.is_multi_stage)
          (calculate_threat_score (g.rule_severity.getD "medium")
            g.is_multi_stage g.rule_id)
          (g.rule_severity.getD "medium") :: rest) ∧
      (create_alert demoFiring []).effects =
        [.persistAlert demoFiring.rule_id demoFiring.source
          (mkReasoning demoFiring.rule_name demoFiring.rule_description
            demoFiring.count demoFiring.source
            demoFiring.mitre_tactics demoFiring.mitre_techniques
            demoFiring.is_multi_stage)
          (calculate_threat_score (demoFiring.rule_severity.getD "medium")
            demoFiring.is_multi_stage demoFiring.rule_id)
          (demoFiring.rule_severity.getD "medium"),
         .setCooldown (cooldown_keyOf demoFiring.rule_id demoFiring.source)
           (demoFiring.now + ALERT_COOLDOWN),
         .publishAnalyze demoFiring.rule_id demoFiring.source
           (calculate_threat_score (demoFiring.rule_severity.getD "medium")
             demoFiring.is_multi_stage demoFiring.rule_id)
           (demoFiring.rule_severity.getD "medium")]) :=
  ⟨rfl, c4_alert_cooldown "brute_force" "203.0.113.7" [demoFiring] []
    demoFiring [] rfl⟩

/- ------------------------------------------------------------------
Event pipeline: deduplication fingerprint and ingest
(src/n7-core/n7_core/event_pipeline/service.py, `_is_duplicate` /
`handle_event`).  SHA-256 is implemented in full (FIPS 180-4) over the
UTF-8 bytes of the fingerprint string.
------------------------------------------------------------------ -/

def w32mod : Nat := 4294967296

def rotr32 (n k : Nat) : Nat :=
  ((n >>> k) ||| (n <<< (32 - k))) % w32mod

/-- The SHA-256 round constants (FIPS 180-4 §4.2.2: the first 32 bits of the
fractional parts of the cube roots of the first 64 primes, here written in
decimal: 0x428a2f98 = 1116352408, ..., 0xc67178f2 = 3329325298). -/
def SHA_K : List Nat :=
  [1116352408, 1899447441, 3049323471, 3921009573, 961987163,
   1508970993, 2453635748, 2870763221, 3624381080, 310598401,
   607225278, 1426881987, 1925078388, 2162078206, 2614888103,
   3248222580, 3835390401, 4022224774, 264347078, 604807628,
   770255983, 1249150122, 1555081692, 1996064986, 2554220882,
   2821834349, 2952996808, 3210313671, 3336571891, 3584528711,
   113926993, 338241895, 666307205, 773529912, 1294757372,
   1396182291, 1695183700, 1986661051, 2177026350, 2456956037,
   2730485921, 2820302411, 3259730800, 3345764771, 3516065817,
   3600352804, 4094571909, 275423344, 430227734, 506948616,
   659060556, 883997877, 958139571, 1322822218, 1537002063,
   1747873779, 1955562222, 2024104815, 2227730452, 2361852424,
   2428436474, 2756734187, 3204031479, 3329325298]

/-- The SHA-256 initial hash state (0x6a09e667 = 1779033703, ...,
0x5be0cd19 = 1541459225). -/
def SHA_H0 : List Nat :=
  [1779033703, 3144134277, 1013904242, 2773480762,
   1359893119, 2600822924, 528734635, 1541459225]

/-- Message-schedule extension: appends the next schedule word `n` times. -/
def extendLoop : Nat → List Nat → List Nat
  | 0, ws => ws
  | n + 1, ws =>
      let i := ws.length
      let w15 := ws.getD (i - 15) 0
      let w2 := ws.getD (i - 2) 0
      let s0 := rotr32 w15 7 ^^^ rotr32 w15 18 ^^^ (w15 >>> 3)
      let s1 := rotr32 w2 17 ^^^ rotr32 w2 19 ^^^ (w2 >>> 10)
      let next := (ws.getD (i - 16) 0 + s0 + ws.getD (i - 7) 0 + s1) % w32mod
      extendLoop n (ws ++ [next])

/-- One SHA-256 compression round on the state `[a,b,c,d,e,f,g,h]`. -/
def compressStep (k w : Nat) (st : List Nat) : List Nat :=
  match st with
  | [a, b, c, d, e, f, g, h] =>
      let s1 := rotr32 e 6 ^^^ rotr32 e 11 ^^^ rotr32 e 25
      let ch := (e &&& f) ^^^ ((e ^^^ 4294967295) &&& g)
      let temp1 := (h + s1 + ch + k + w) % w32mod
      let s0 := rotr32 a 2 ^^^ rotr32 a 13 ^^^ rotr32 a 22
      let maj := (a &&& b) ^^^ (a &&& c) ^^^ (b &&& c)
      let temp2 := (s0 + maj) % w32mod
      [(temp1 + temp2) % w32mod, a, b, c, (d + temp1) % w32mod, e, f, g]
  | st => st

/-- Compress one 512-bit block (16 words) into the running hash state. -/
def compressBlock (h : List Nat) (block : List Nat) : List Nat :=
  let ws := extendLoop 48 block
  let st := (SHA_K.zip ws).foldl (fun st kw => compressStep kw.1 kw.2 st) h
  (h.zip st).map fun p => (p.1 + p.2) % w32mod

/-- Big-endian byte serialisation of `n` into `k` bytes. -/
def toBytesBE (k n : Nat) : List Nat :=
  (List.range k).map fun i => (n >>> (8 * (k - 1 - i))) % 256

/-- SHA-256 padding: `0x80`, zeros to 56 mod 64, 64-bit bit length. -/
def padMessage (msg : List Nat) : List Nat :=
  let len := msg.length
  let padZeros := (119 - len % 64) % 64
  msg ++ [128] ++ List.replicate padZeros 0 ++ toBytesBE 8 (len * 8)

/-- The 16 big-endian 32-bit words of a 64-byte block. -/
def toWords (block : List Nat) : List Nat :=
  (List.range 16).map fun i =>
    (block.getD (4 * i) 0) <<< 24 + (block.getD (4 * i + 1) 0) <<< 16 +
      (block.getD (4 * i + 2) 0) <<< 8 + block.getD (4 * i + 3) 0

/-- Split into 64-byte chunks (fuelled for structural recursion). -/
def chunksLoop : Nat → List Nat → List (List Nat)
  | 0, _ => []
  | _ + 1, [] => []
  | fuel + 1, l => l.take 64 :: chunksLoop fuel (l.drop 64)

/-- SHA-256 of a byte sequence, as eight 32-bit words. -/
def sha256Words (msg : List Nat) : List Nat :=
  let padded := padMessage msg
  ((chunksLoop padded.length padded).map toWords).foldl compressBlock SHA_H0

def hexDigit (n : Nat) : Char :=
  if n < 10 then Char.ofNat (48 + n) else Char.ofNat (87 + n)

/-- `hashlib.sha256(...).hexdigest()`: the lowercase hex digest. -/
def sha256_hex (msg : List Nat) : String :=
  String.mk (((sha256Words msg).map fun w =>
    (List.range 8).map fun i => hexDigit ((w >>> (4 * (7 - i))) % 16)).flatten)

/-- UTF-8 encoding of one character (`str.encode()`). -/
def utf8EncodeChar (c : Char) : List Nat :=
  let n := c.toNat
  if n < 128 then [n]
  else if n < 2048 then [192 + n / 64, 128 + n % 64]
  else if n < 65536 then
    [224 + n / 4096, 128 + (n / 64) % 64, 128 + n % 64]
  else
    [240 + n / 262144, 128 + (n / 4096) % 64, 128 + (n / 64) % 64, 128 + n % 64]

/-- UTF-8 encoding of a string. -/
def utf8Bytes (s : String) : List Nat :=
  (s.data.map utf8EncodeChar).flatten

/-- SHA-256 known-answer tests (FIPS 180-4 examples), checking the
implementation the fingerprint relies on. -/
theorem sha256_known_answers :
    sha256_hex (utf8Bytes "abc") =
        "ba7816bf8f01cfea414140de5dae2223b00361a396177a9cb410ff61f20015ad" ∧
      sha256_hex (utf8Bytes "") =
        "e3b0c44298fc1c149afbf4c8996fb92427ae41e4649b934ca495991b7852b855" :=
  ⟨rfl, rfl⟩

/-- `json.dumps` of one value (strings are assumed free of characters that
need escaping, as the services' field values are). -/
def dumpJVal : JVal → String
  | .s v => "\"" ++ v ++ "\""
  | .i v => toString v
  | .b true => "true"
  | .b false => "false"
  | .null => "null"
  | .arr v =>
      "[" ++ String.intercalate ", " (v.map fun s => "\"" ++ s ++ "\"") ++ "]"

/-- Lexicographic code-point comparison of character lists (Python's `<` on
strings). -/
def strLtChars : List Char → List Char → Bool
  | [], [] => false
  | [], _ :: _ => true
  | _ :: _, [] => false
  | a :: as, b :: bs =>
      if a.toNat < b.toNat then true
      else if b.toNat < a.toNat then false
      else strLtChars as bs

def pyStrLt (a b : String) : Bool := strLtChars a.data b.data

/-- Insertion into a key-sorted association list (code-point order, as
Python's `sorted`). -/
def insertSorted (kv : String × JVal) : List (String × JVal) →
    List (String × JVal)
  | [] => [kv]
  | hd :: tl =>
      if pyStrLt hd.1 kv.1 then hd :: insertSorted kv tl else kv :: hd :: tl

def sortPairs : List (String × JVal) → List (String × JVal)
  | [] => []
  | kv :: tl => insertSorted kv (sortPairs tl)

/-- `json.dumps(d, sort_keys=True)` for a flat JSON object, with Python's
default separators. -/
def pyDumpsSorted (d : List (String × JVal)) : String :=
  "\x7b" ++
    String.intercalate ", "
      ((sortPairs d).map fun kv => "\"" ++ kv.1 ++ "\": " ++ dumpJVal kv.2) ++
    "\x7d"

/-- Canonical serialisation check: keys are emitted sorted with Python's
separators. -/
theorem pyDumpsSorted_example :
    pyDumpsSorted [("source_ip", .s "203.0.113.7"), ("outcome", .s "failure")] =
      "\x7b\"outcome\": \"failure\", \"source_ip\": \"203.0.113.7\"\x7d" := by
  rfl

/-- An incoming event message as `handle_event` parses it (`None` fields
model absent keys). -/
structure EventDict where
  event_id : Option String
  sentinel_id : Option String
  event_class : Option String
  severity : Option String
  raw_data : Option (List (String × JVal))
  timestamp : Option String
  mitre_techniques : List String
deriving Repr

/-- Python `str(...)` of an optional value inside an f-string: `None` prints
as the four letters. -/
def pyStrOpt : Option String → String
  | none => "None"
  | some s => s

/-- `json.dumps(event_dict.get('raw_data'), sort_keys=True)`: an absent
`raw_data` serialises as `null`. -/
def rawCanonical (e : EventDict) : String :=
  match e.raw_data with
  | some d => pyDumpsSorted d
  | none => "null"

/-- The fingerprint source string of `_is_duplicate`:
`f"{sentinel_id}:{event_class}:{json.dumps(raw_data, sort_keys=True)}"`,
built from the RAW message fields (before normalisation). -/
def unique_str (e : EventDict) : String :=
  pyStrOpt e.sentinel_id ++ ":" ++ pyStrOpt e.event_class ++ ":" ++
    rawCanonical e

/-- `f"n7:dedup:{event_hash}"` with `event_hash` the SHA-256 hexdigest of
the fingerprint source. -/
def dedup_key (e : EventDict) : String :=
  "n7:dedup:" ++ sha256_hex (utf8Bytes (unique_str e))

/-- `self.dedup_window` (seconds). -/
def DEDUP_WINDOW : Int := 60

/-- Translation of `EventPipelineService._is_duplicate` (Redis reachable):
a cache hit on the fingerprint key reports a duplicate and leaves the cache
untouched; a miss binds the key for `dedup_window` seconds and reports
fresh. -/
def is_duplicate (now : Int) (e : EventDict) (cache : List (String × Int)) :
    Bool × List (String × Int) :=
  let key := dedup_key e
  if redis_get_present cache key now then (true, cache)
  else (false, redis_set_ex cache key (now + DEDUP_WINDOW))

/-- A row of the events table (the enrichment service is not injected in
this model, so `enrichments = {}` and no IOC promotion occurs — neither
affects deduplication). -/
structure EventRow where
  event_id : String
  sentinel_id : String
  event_class : String
  severity : String
  raw_data : List (String × JVal)
  enrichments : List (String × JVal)
  mitre_techniques : List String
deriving Repr, DecidableEq

/-- The pipeline's observable state: the dedup cache, the rows buffered for
the events table, and the protobuf fan-out to `n7.internal.events`. -/
structure PipelineState where
  cache : List (String × Int)
  buffer : List EventRow
  published : List EventRow
deriving Repr

/-- Translation of `EventPipelineService.handle_event`: field normalisation
(defaults for missing keys; a missing `event_id` takes the fresh UUID, a
missing `sentinel_id` the nil UUID — the syntactic UUID validation of
present values is elided), then the dedup check — a duplicate returns before
persistence and fan-out — then buffering of the row and publication. -/
def handle_event (now : Int) (fresh_uuid : String) (e : EventDict)
    (st : PipelineState) : PipelineState :=
  let event_id :=
    match e.event_id with
    | some v => v
    | none => fresh_uuid
  let sentinel_id :=
    match e.sentinel_id with
    | some v => v
    | none => "00000000-0000-0000-0000-000000000000"
  let event_class := e.event_class.getD "unknown"
  let severity := e.severity.getD "informational"
  let raw_data := e.raw_data.getD []
  match is_duplicate now e st.cache with
  | (true, cache) => { st with cache := cache }
  | (false, cache) =>
      let row : EventRow :=
        { event_id := event_id, sentinel_id := sentinel_id,
          event_class := event_class, severity := severity,
          raw_data := raw_data, enrichments := [],
          mitre_techniques := e.mitre_techniques }
      { cache := cache, buffer := st.buffer ++ [row],
        published := st.published ++ [row] }

/-- C5: two events within 60 s with identical `sentinel_id`, `event_class`
and canonical `raw_data` yield exactly one appended row: the fingerprint key
is SHA-256 over the `sentinel_id:event_class:canonical_json` string, the
first occurrence binds it for 60 s and appends/publishes exactly one row, and
the second occurrence leaves the whole pipeline state unchanged — dropped
before persistence and fan-out. -/
theorem c5_dedup_single_row (e1 e2 : EventDict) (t1 t2 : Int)
    (fresh1 fresh2 : String) (st0 : PipelineState)
    (hsent : e1.sentinel_id = e2.sentinel_id)
    (hclass : e1.event_class = e2.event_class)
    (hraw : rawCanonical e1 = rawCanonical e2)
    (habsent : redis_get_present st0.cache (dedup_key e1) t1 = false)
    (_ht : t1 ≤ t2) (hwin : t2 < t1 + DEDUP_WINDOW) :
    dedup_key e1 = "n7:dedup:" ++ sha256_hex (utf8Bytes
        (pyStrOpt e1.sentinel_id ++ ":" ++ pyStrOpt e1.event_class ++ ":" ++
          rawCanonical e1)) ∧
    (handle_event t1 fresh1 e1 st0).cache.lookup (dedup_key e1) =
      some (t1 + DEDUP_WINDOW) ∧
    (handle_event t1 fresh1 e1 st0).buffer.length = st0.buffer.length + 1 ∧
    (handle_event t1 fresh1 e1 st0).published.length =
      st0.published.length + 1 ∧
    handle_event t2 fresh2 e2 (handle_event t1 fresh1 e1 st0) =
      handle_event t1 fresh1 e1 st0 := by
  have hukey : unique_str e2 = unique_str e1 := by
    rw [unique_str, unique_str, hsent, hclass, hraw]
  have hkey : dedup_key e2 = dedup_key e1 := by
    rw [dedup_key, dedup_key, hukey]
  have hdup1 : is_duplicate t1 e1 st0.cache =
      (false, redis_set_ex st0.cache (dedup_key e1) (t1 + DEDUP_WINDOW)) := by
    simp [is_duplicate, habsent]
  have hst1 : handle_event t1 fresh1 e1 st0 =
      { cache := redis_set_ex st0.cache (dedup_key e1) (t1 + DEDUP_WINDOW),
        buffer := st0.buffer ++
          [{ event_id := match e1.event_id with
               | some v => v
               | none => fresh1,
             sentinel_id := match e1.sentinel_id with
               | some v => v
               | none => "00000000-0000-0000-0000-000000000000",
             event_class := e1.event_class.getD "unknown",
             severity := e1.severity.getD "informational",
             raw_data := e1.raw_data.getD [],
             enrichments := [],
             mitre_techniques := e1.mitre_techniques }],
        published := st0.published ++
          [{ event_id := match e1.event_id with
               | some v => v
               | none => fresh1,
             sentinel_id := match e1.sentinel_id with
               | some v => v
               | none => "00000000-0000-0000-0000-000000000000",
             event_class := e1.event_class.getD "unknown",
             severity := e1.severity.getD "informational",
             raw_data := e1.raw_data.getD [],
             enrichments := [],
             mitre_techniques := e1.mitre_techniques }] } := by
    rw [handle_event, hdup1]
  have hlookup : (handle_event t1 fresh1 e1 st0).cache.lookup (dedup_key e1) =
      some (t1 + DEDUP_WINDOW) := by
    rw [hst1]
    exact lookup_redis_set_ex_self _ _ _
  have hhit : redis_get_present (handle_event t1 fresh1 e1 st0).cache
      (dedup_key e2) t2 = true := by
    rw [hkey, redis_get_present, hlookup]
    simpa using hwin
  have hdup2 : is_duplicate t2 e2 (handle_event t1 fresh1 e1 st0).cache =
      (true, (handle_event t1 fresh1 e1 st0).cache) := by
    simp [is_duplicate, hhit]
  refine ⟨rfl, hlookup, ?_, ?_, ?_⟩
  · rw [hst1]
    simp
  · rw [hst1]
    simp
  · rw [handle_event, hdup2]

/-- A concrete failed-authentication event from one source. -/
def demoEvent : EventDict :=
  { event_id := some "3f2a7c1e-5b7d-4e0a-9c6f-2d8b1a4e7f90",
    sentinel_id := some "7d444840-9dc0-11d1-b245-5ffdce74fad2",
    event_class := some "authentication",
    severity := some "high",
    raw_data := some [("source_ip", .s "203.0.113.7"),
                      ("outcome", .s "failure")],
    timestamp := none,
    mitre_techniques := [] }

/-- The pipeline's initial state: empty cache, empty buffer, nothing
published. -/
def emptyPipeline : PipelineState :=
  { cache := [], buffer := [], published := [] }

/-- Witness for `c5_dedup_single_row`: the same authentication-failure event
arriving twice, 30 s apart, from an empty cache. -/
theorem c5_dedup_single_row_witness :
    redis_get_present emptyPipeline.cache (dedup_key demoEvent) 1000 = false ∧
    ((1000 : Int) ≤ 1030) ∧ ((1030 : Int) < 1000 + DEDUP_WINDOW) ∧
    (dedup_key demoEvent = "n7:dedup:" ++ sha256_hex (utf8Bytes
        (pyStrOpt demoEvent.sentinel_id ++ ":" ++
          pyStrOpt demoEvent.event_class ++ ":" ++ rawCanonical demoEvent)) ∧
      (handle_event 1000 "u-1" demoEvent emptyPipeline).cache.lookup
          (dedup_key demoEvent) = some (1000 + DEDUP_WINDOW) ∧
      (handle_event 1000 "u-1" demoEvent emptyPipeline).buffer.length =
        emptyPipeline.buffer.length + 1 ∧
      (handle_event 1000 "u-1" demoEvent emptyPipeline).published.length =
        emptyPipeline.published.length + 1 ∧
      handle_event 1030 "u-2" demoEvent
          (handle_event 1000 "u-1" demoEvent emptyPipeline) =
        handle_event 1000 "u-1" demoEvent emptyPipeline) :=
  ⟨rfl, by norm_num, by norm_num [DEDUP_WINDOW],
    c5_dedup_single_row demoEvent demoEvent 1000 1030 "u-1" "u-2"
      emptyPipeline rfl rfl rfl rfl
      (by norm_num) (by norm_num [DEDUP_WINDOW])⟩
